import Mathlib

/-!
Shallow embedding of the OpenAI→NVIDIA-NIM proxy (`src/server.js`):
model resolution, message normalization, upstream request building,
the streaming response transcoder, and the error-mapping catch handler.

JavaScript conventions modelled explicitly:
* a possibly-absent object field is an `Option`;
* string truthiness (`if (s)`) is "present and nonempty" (`truthy`);
* `a || b` on numbers/strings is `jsOr…` (falls to `b` on `0` / `""` / absent).
-/

/-- JS truthiness of a possibly-absent string field: present and nonempty. -/
def truthy : Option String → Bool
  | none => false
  | some s => s ≠ ""

/-- JS `a || b` where `a` is a possibly-absent string (absent or `""` falls to `b`). -/
def jsOrStr (a : Option String) (b : String) : String :=
  match a with
  | some s => if s = "" then b else s
  | none => b

/-- JS `a || b` where `a` is a possibly-absent number (absent or `0` falls to `b`). -/
def jsOrRat (a : Option ℚ) (b : ℚ) : ℚ :=
  match a with
  | some x => if x = 0 then b else x
  | none => b

/-- JS `a || b` where `a` is a possibly-absent nonnegative integer field. -/
def jsOrNat (a : Option Nat) (b : Nat) : Nat :=
  match a with
  | some n => if n = 0 then b else n
  | none => b

/-- JS `String.prototype.includes`: does `sub` occur in `s`?
(For the nonempty needles used by the proxy, splitting on the needle
yields more than one piece exactly when it occurs.) -/
def jsIncludes (s sub : String) : Bool :=
  (s.splitOn sub).length ≠ 1

/-- JS `String.prototype.startsWith`: the first characters of `s` are
exactly `p`. -/
def jsStartsWith (s p : String) : Bool :=
  s.data.take p.data.length == p.data

/-- JS `String.prototype.slice(n)`: the characters of `s` from index `n`
on (the streamed SSE lines are ASCII, so character and UTF-16 indices
coincide). -/
def jsSlice (s : String) (n : Nat) : String :=
  ⟨s.data.drop n⟩

/- ===== Configuration constants (`server.js` lines 27-59) ===== -/

/-- `SHOW_REASONING` (line 28). -/
def SHOW_REASONING : Bool := true

/-- `ARRAY_CONTENT_MODELS` (lines 31-34). -/
def ARRAY_CONTENT_MODELS : List String :=
  ["moonshotai/kimi-k2.5-instruct", "moonshotai/kimi-k2-instruct-0905"]

/-- `ENABLE_THINKING_MODE` (line 37). -/
def ENABLE_THINKING_MODE : Bool := false

/-- `THINKING_MODELS` (lines 40-43). -/
def THINKING_MODELS : List String :=
  ["qwen/qwen3-next-80b-a3b-thinking", "qwen/qwq-32b-preview"]

/-- `MODEL_MAPPING` (lines 46-59), as an association list; the caller-facing
key space has no duplicates and every upstream value is a nonempty (truthy)
string. -/
def MODEL_MAPPING : List (String × String) :=
  [("gpt-3.5-turbo", "nvidia/llama-3.1-nemotron-ultra-253b-v1"),
   ("gpt-4", "qwen/qwen3-coder-480b-a35b-instruct"),
   ("gpt-4-turbo", "moonshotai/kimi-k2.5-instruct"),
   ("gpt-4-turbo-preview", "moonshotai/kimi-k2.5-instruct"),
   ("gpt-4o", "deepseek-ai/deepseek-v3.1"),
   ("gpt-4o-mini", "meta/llama-3.1-70b-instruct"),
   ("claude-3-opus", "openai/gpt-oss-120b"),
   ("claude-3-sonnet", "openai/gpt-oss-20b"),
   ("claude-3-5-sonnet", "openai/gpt-oss-120b"),
   ("gemini-pro", "qwen/qwen3-next-80b-a3b-thinking"),
   ("kimi-k2.5", "moonshotai/kimi-k2.5-instruct"),
   ("kimi", "moonshotai/kimi-k2.5-instruct")]

/- ===== Model resolver (lines 93-144) ===== -/

/-- `modelLower.includes(...)` size-heuristic fallback (lines 130-143). -/
def sizeFallback (model : String) : String :=
  let modelLower := model.toLower
  if jsIncludes modelLower "gpt-4" || jsIncludes modelLower "claude-opus" ||
      jsIncludes modelLower "405b" then
    "meta/llama-3.1-405b-instruct"
  else if jsIncludes modelLower "claude" || jsIncludes modelLower "gemini" ||
      jsIncludes modelLower "70b" then
    "meta/llama-3.1-70b-instruct"
  else
    "meta/llama-3.1-8b-instruct"

/-- Result of the model-resolution cascade: chosen upstream model, whether the
validation probe was issued, and the validated-model cache afterwards. -/
structure ResolveOut where
  nimModel : String
  probeCalled : Bool
  cache : List String
  deriving Repr, DecidableEq

/-- The four-step resolution cascade (lines 93-144).  `probe` is the outcome of
the live validation request, were it issued: `some status` for an HTTP reply
(axios resolves for status < 500 by `validateStatus`, throws for ≥ 500 — both
non-2xx outcomes fall through identically), `none` for a network error or
timeout (also caught and swallowed, line 125-127). -/
def resolveModel (probe : Option Nat) (cache : List String) (model : String) :
    ResolveOut :=
  match MODEL_MAPPING.lookup model with
  | some m => ⟨m, false, cache⟩
  | none =>
    if cache.contains model then ⟨model, false, cache⟩
    else
      match probe with
      | some status =>
        if 200 ≤ status && status < 300 then ⟨model, true, model :: cache⟩
        else ⟨sizeFallback model, true, cache⟩
      | none => ⟨sizeFallback model, true, cache⟩

/- ===== Message normalizer (lines 146-166) ===== -/

/-- One element of a structured content array: `{ type: ..., text: ... }`. -/
structure ContentPart where
  type_ : String
  text : String
  deriving Repr, DecidableEq

/-- Message content: either a plain string or a structured part array. -/
inductive Content where
  | str : String → Content
  | parts : List ContentPart → Content
  deriving Repr, DecidableEq

/-- A chat message. -/
structure Msg where
  role : String
  content : Content
  deriving Repr, DecidableEq

/-- `requiresArrayFormat` (line 146): some entry of `ARRAY_CONTENT_MODELS`,
split on `/` and taking index 1, occurs in the resolved model name. -/
def requiresArrayFormat (nimModel : String) : Bool :=
  ARRAY_CONTENT_MODELS.any fun m =>
    jsIncludes nimModel ((m.splitOn "/").getD 1 "")

/-- Flattening of a structured content array (lines 156-159): keep the parts
tagged `text`, take their text, join with newlines. -/
def flattenParts (ps : List ContentPart) : String :=
  String.intercalate "\n"
    ((ps.filter (fun item => item.type_ == "text")).map ContentPart.text)

/-- The per-message transform inside `messages.map` (lines 148-166). -/
def transformMsg (raf : Bool) (msg : Msg) : Msg :=
  match msg.content with
  | .str s =>
    if raf then { msg with content := Content.parts [⟨"text", s⟩] } else msg
  | .parts ps =>
    if !raf then { msg with content := Content.str (flattenParts ps) }
    else msg

/- ===== Request builder (lines 168-180) ===== -/

/-- The upstream request body `nimRequest` (lines 170-180).  `extra_body` is
`true` when the thinking-mode sub-object is attached. -/
structure NimRequest where
  model : String
  messages : List Msg
  temperature : ℚ
  max_tokens : Nat
  stream : Bool
  extra_body : Bool
  deriving Repr, DecidableEq

/-- Builds `nimRequest` (lines 168-180): `temperature || 0.6`,
`max_tokens || 9024`, `stream || false`, and the thinking sub-object attached
iff `ENABLE_THINKING_MODE && supportsThinking`. -/
def buildNimRequest (nimModel : String) (msgs : List Msg)
    (temperature : Option ℚ) (max_tokens : Option Nat) (stream : Option Bool) :
    NimRequest :=
  { model := nimModel
    messages := msgs
    temperature := jsOrRat temperature (6/10)
    max_tokens := jsOrNat max_tokens 9024
    stream := stream.getD false
    extra_body := ENABLE_THINKING_MODE && THINKING_MODELS.contains nimModel }

/- ===== Streaming transcoder (lines 195-265) ===== -/

/-- One streamed delta: the optional `reasoning_content` and `content`
fragments of `choices[0].delta`. -/
structure Delta where
  reasoning_content : Option String
  content : Option String
  deriving Repr, DecidableEq

/-- One step of the `SHOW_REASONING` stateful merge (lines 223-243), taking the
`reasoningStarted` flag and the incoming delta, returning the forwarded delta
and the new flag.  When the combined text is empty the guard
`if (combinedContent)` (line 240) skips both the content assignment and the
`delete` of `reasoning_content`, so the delta passes through unchanged. -/
def mergeStep (reasoningStarted : Bool) (d : Delta) : Delta × Bool :=
  let p1 : String × Bool :=
    if truthy d.reasoning_content && !reasoningStarted then
      ("<think>\n" ++ d.reasoning_content.getD "", true)
    else if truthy d.reasoning_content then
      (d.reasoning_content.getD "", reasoningStarted)
    else ("", reasoningStarted)
  let p2 : String × Bool :=
    if truthy d.content && p1.2 then
      (p1.1 ++ "</think>\n\n" ++ d.content.getD "", false)
    else if truthy d.content then
      (p1.1 ++ d.content.getD "", p1.2)
    else p1
  if p2.1 ≠ "" then
    (⟨none, some p2.1⟩, p2.2)
  else (d, p2.2)

/-- The `SHOW_REASONING`-disabled branch (lines 244-251): forward only the
answer fragment (empty string if absent), always strip the reasoning field. -/
def noReasoningStep (d : Delta) : Delta :=
  ⟨none, some (d.content.getD "")⟩

/-- Runs `mergeStep` over a whole delta sequence from a given starting flag,
collecting the forwarded deltas. -/
def mergeStream (st : Bool) : List Delta → List Delta × Bool
  | [] => ([], st)
  | d :: ds =>
    let r := mergeStep st d
    let rest := mergeStream r.2 ds
    (r.1 :: rest.1, rest.2)

/-- Concatenation of the emitted content fragments of a forwarded delta list. -/
def emittedContent (ds : List Delta) : String :=
  String.join (ds.map fun d => d.content.getD "")

/-- One choice of a streamed data frame; only the delta matters to the
transcoder, and `delta` may be absent (the `&& data.choices[0].delta`
guard on line 219). -/
structure StreamChoice where
  delta : Option Delta
  deriving Repr, DecidableEq

/-- The parsed JSON object of one `data: ` line.  `choices` may be absent
(the `data.choices &&` guard on line 219). -/
structure Frame where
  choices : Option (List StreamChoice)
  deriving Repr, DecidableEq

/-- Per-line processing inside `lines.forEach` (lines 210-258): output strings
written to the caller for this line, and the `reasoningStarted` flag
afterwards.  `parse` stands for `JSON.parse` on the text after the
6-character `data: ` prefix (`none` = parse throws); `stringify` stands for
`JSON.stringify` on the possibly-mutated object. -/
def processLine (parse : String → Option Frame) (stringify : Frame → String)
    (showReasoning : Bool) (st : Bool) (line : String) : List String × Bool :=
  if jsStartsWith line "data: " then
    if jsIncludes line "[DONE]" then ([line ++ "\n"], st)
    else
      match parse (jsSlice line 6) with
      | none => ([line ++ "\n"], st)
      | some data =>
        match data.choices with
        | some (c :: cs) =>
          match c.delta with
          | some d =>
            let r : Delta × Bool :=
              if showReasoning then mergeStep st d else (noReasoningStep d, st)
            (["data: " ++
                stringify ⟨some ({ delta := some r.1 } :: cs)⟩ ++ "\n\n"],
             r.2)
          | none => (["data: " ++ stringify data ++ "\n\n"], st)
        | _ => (["data: " ++ stringify data ++ "\n\n"], st)
  else ([], st)

/-- Processing of a sequence of complete lines, threading the
`reasoningStarted` flag and concatenating the written output. -/
def processLines (parse : String → Option Frame) (stringify : Frame → String)
    (showReasoning : Bool) (st : Bool) : List String → List String × Bool
  | [] => ([], st)
  | l :: ls =>
    let r := processLine parse stringify showReasoning st l
    let rest := processLines parse stringify showReasoning r.2 ls
    (r.1 ++ rest.1, rest.2)

/- ===== Error catch handler (lines 298-312) ===== -/

/-- `error.response.data`; only the `detail` field is consulted. -/
structure ErrData where
  detail : Option String
  deriving Repr, DecidableEq

/-- `error.response`: upstream HTTP status plus optional response body. -/
structure ErrResponse where
  status : Nat
  data : Option ErrData
  deriving Repr, DecidableEq

/-- The caught error object: `response` is present when the upstream replied
with a non-2xx status, absent on a transport failure or a local throw;
`message` is the message field of the error object itself. -/
structure ErrObj where
  response : Option ErrResponse
  message : Option String
  deriving Repr, DecidableEq

/-- The value of `error.response && error.response.data &&
error.response.data.detail` when used as the left operand of `||`:
falsy unless every link is present. -/
def detailOf (e : ErrObj) : Option String :=
  match e.response with
  | none => none
  | some r =>
    match r.data with
    | none => none
    | some d => d.detail

/-- The error envelope body `{ error: { message, type, code } }`. -/
structure ErrorEnvelope where
  message : String
  type_ : String
  code : Nat
  deriving Repr, DecidableEq

/-- The catch handler (lines 298-312): HTTP status
`error.response ? error.response.status : 500` and envelope with message
`(error.response && error.response.data && error.response.data.detail) ||
error.message || "Internal server error"` and fixed type
`invalid_request_error`. -/
def catchHandler (e : ErrObj) : Nat × ErrorEnvelope :=
  let status := match e.response with
    | some r => r.status
    | none => 500
  (status,
   ⟨jsOrStr (detailOf e) (jsOrStr e.message "Internal server error"),
    "invalid_request_error", status⟩)

/- ===== Orchestrator (lines 87-313) ===== -/

/-- The request body fields of the caller, destructured on line 89. -/
structure ChatRequest where
  model : String
  messages : Option (List Msg)
  temperature : Option ℚ
  max_tokens : Option Nat
  stream : Option Bool
  deriving Repr, DecidableEq

/-- Outcome of the main upstream call. -/
inductive UpstreamOutcome where
  | success
  | failure (e : ErrObj)
  deriving Repr, DecidableEq

/-- The Authorization header value: a JS template literal renders an
undefined `NIM_API_KEY` as the string `undefined`. -/
def authHeader (apiKey : Option String) : String :=
  "Bearer " ++ apiKey.getD "undefined"

/-- What the handler of `POST /v1/chat/completions` produced for one request. -/
structure HandlerResult where
  status : Nat
  errType : Option String
  errMessage : Option String
  mainCalled : Bool
  probeCalled : Bool
  deriving Repr, DecidableEq

/-- The message of the TypeError thrown by `messages.map` when `messages` is
absent from the request body (line 148). -/
def mapTypeErrorMessage : String :=
  "Cannot read properties of undefined (reading map)"

/-- The chat-completions handler (lines 87-313) at request granularity.
Model resolution (lines 93-144) runs before `messages.map` (line 148), so a
probe may be issued even when `messages` is absent; `messages.map` on an
absent array throws a TypeError that the catch handler (lines 298-312) maps
like any other error without an upstream response attached.  `upstream` is
the outcome of the main upstream call as a function of the Authorization
header and the built request; the handler never inspects `apiKey` itself. -/
def handleChat (apiKey : Option String) (probe : Option Nat)
    (cache : List String) (upstream : String → NimRequest → UpstreamOutcome)
    (req : ChatRequest) : HandlerResult :=
  let r := resolveModel probe cache req.model
  match req.messages with
  | none =>
    let caught := catchHandler ⟨none, some mapTypeErrorMessage⟩
    ⟨caught.1, some caught.2.type_, some caught.2.message, false, r.probeCalled⟩
  | some msgs =>
    let raf := requiresArrayFormat r.nimModel
    let transformed := msgs.map (transformMsg raf)
    let nimReq := buildNimRequest r.nimModel transformed req.temperature
      req.max_tokens req.stream
    match upstream (authHeader apiKey) nimReq with
    | .success => ⟨200, none, none, true, r.probeCalled⟩
    | .failure e =>
      let caught := catchHandler e
      ⟨caught.1, some caught.2.type_, some caught.2.message, true,
       r.probeCalled⟩

/- ===== Helper lemmas ===== -/

/-- Appending to the right of a nonempty string stays nonempty. -/
theorem append_left_ne_empty (a b : String) (h : a ≠ "") : a ++ b ≠ "" := by
  intro hab
  apply h
  cases a with
  | mk da =>
    cases b with
    | mk db =>
      have hd : da ++ db = [] := by
        have := congrArg String.data hab
        simpa [String.instAppend, String.append] using this
      rcases List.append_eq_nil.mp hd with ⟨h1, _⟩
      simp [h1]

/-- `transformMsg` never changes the role of a message. -/
theorem transformMsg_role (raf : Bool) (msg : Msg) :
    (transformMsg raf msg).role = msg.role := by
  cases msg with
  | mk role content => cases content <;> cases raf <;> rfl

/- ===== Claim theorems ===== -/

/-- C1: with reasoning display enabled the streaming merge tracks one
reasoning-span flag: a (nonempty) reasoning fragment with the span closed is
emitted as `<think>\n` plus the fragment and opens the span; a reasoning
fragment with the span open is emitted alone; an answer fragment with the
span open is emitted prefixed by `</think>\n\n` and closes the span; an
answer fragment with the span closed is emitted alone.  On the delta
sequence `[reasoning A, reasoning B, content C]` the emitted content
fragments concatenate to exactly `<think>\nAB</think>\n\nC`. -/
theorem C1_streaming_reasoning_merge (r c : String) (hr : r ≠ "") (hc : c ≠ "") :
    mergeStep false ⟨some r, none⟩ = (⟨none, some ("<think>\n" ++ r)⟩, true) ∧
    mergeStep true ⟨some r, none⟩ = (⟨none, some r⟩, true) ∧
    mergeStep true ⟨none, some c⟩ = (⟨none, some ("</think>\n\n" ++ c)⟩, false) ∧
    mergeStep false ⟨none, some c⟩ = (⟨none, some c⟩, false) ∧
    emittedContent (mergeStream false
      [⟨some "A", none⟩, ⟨some "B", none⟩, ⟨none, some "C"⟩]).1 =
      "<think>\nAB</think>\n\nC" := by
  refine ⟨?_, ?_, ?_, ?_, by decide⟩
  · simp only [mergeStep, truthy]
    simp [hr, append_left_ne_empty "<think>\n" r (by decide)]
  · simp only [mergeStep, truthy]
    simp [hr]
  · simp only [mergeStep, truthy]
    simp [hc, append_left_ne_empty "</think>\n\n" c (by decide)]
  · simp only [mergeStep, truthy]
    simp [hc]

/-- Witness for C1 at the concrete fragments `A` and `C`. -/
theorem C1_streaming_reasoning_merge_witness :
    ("A" : String) ≠ "" ∧ ("C" : String) ≠ "" ∧
    mergeStep false ⟨some "A", none⟩ = (⟨none, some "<think>\nA"⟩, true) :=
  ⟨by decide, by decide,
   (C1_streaming_reasoning_merge "A" "C" (by decide) (by decide)).1⟩

/-- C2 counterexample: with reasoning display enabled, a delta carrying
neither fragment is NOT forwarded with an empty content string — the guard
`if (combinedContent)` skips the assignment, so the content field stays
missing. -/
theorem C2_counterexample :
    (mergeStep false ⟨none, none⟩).1.content ≠ some "" := by decide

/-- C2 amended: with reasoning display enabled, whenever neither a (truthy)
reasoning fragment nor a (truthy) answer fragment is present, the frame is
forwarded with its delta entirely unchanged — the content field keeps its
original value (possibly missing) and an existing reasoning field is NOT
removed — and the span flag is unchanged. -/
theorem C2_amended (st : Bool) (d : Delta)
    (hr : truthy d.reasoning_content = false)
    (hc : truthy d.content = false) :
    mergeStep st d = (d, st) := by
  simp [mergeStep, hr, hc]

/-- Witness for C2 amended at the empty delta. -/
theorem C2_amended_witness :
    truthy (Delta.mk none none).reasoning_content = false ∧
    truthy (Delta.mk none none).content = false ∧
    mergeStep false ⟨none, none⟩ = (⟨none, none⟩, false) :=
  ⟨rfl, rfl, C2_amended false ⟨none, none⟩ rfl rfl⟩

/-- C3: the code evaluated at the failing input — a caller temperature of
exactly 0 is replaced by the default 0.6 in the upstream request
(`temperature || 0.6` treats 0 as absent), contradicting the documented
intent that an explicit 0 be preserved. -/
theorem C3_temperature_zero_replaced :
    (buildNimRequest "gpt-4" [] (some 0) none none).temperature = 6/10 ∧
    (6/10 : ℚ) ≠ 0 := by
  constructor
  · simp [buildNimRequest, jsOrRat]
  · norm_num

/-- C4 counterexample: a request with a missing message array is answered
with status 500, not 400. -/
theorem C4_counterexample :
    (handleChat (some "key") (some 200) [] (fun _ _ => .success)
      ⟨"gpt-4", none, none, none, none⟩).status ≠ 400 := by decide

/-- C4 amended: a missing message array makes `messages.map` throw a
TypeError that the generic catch maps to a 500 `invalid_request_error`
response (never a 400), with the main upstream call not made; an empty
message array is not rejected at all — the request is forwarded upstream. -/
theorem C4_amended (apiKey : Option String) (probe : Option Nat)
    (cache : List String) (upstream : String → NimRequest → UpstreamOutcome)
    (model : String) (t : Option ℚ) (mt : Option Nat) (s : Option Bool) :
    (handleChat apiKey probe cache upstream ⟨model, none, t, mt, s⟩).status = 500 ∧
    (handleChat apiKey probe cache upstream ⟨model, none, t, mt, s⟩).errType =
      some "invalid_request_error" ∧
    (handleChat apiKey probe cache upstream ⟨model, none, t, mt, s⟩).mainCalled
      = false ∧
    (handleChat apiKey probe cache upstream ⟨model, some [], t, mt, s⟩).mainCalled
      = true := by
  refine ⟨rfl, rfl, rfl, ?_⟩
  simp only [handleChat]
  cases hu : upstream (authHeader apiKey)
      (buildNimRequest (resolveModel probe cache model).nimModel
        (List.map (transformMsg
          (requiresArrayFormat (resolveModel probe cache model).nimModel)) [])
        t mt s) <;> simp [hu]

/-- C5 counterexample: with no credential configured and the upstream
rejecting the unauthenticated call with a 401, the proxy answers 401 typed
`invalid_request_error` — not a 500 classified as a configuration error. -/
theorem C5_counterexample :
    (handleChat none (some 200) []
      (fun _ _ => .failure ⟨some ⟨401, none⟩,
        some "Request failed with status code 401"⟩)
      ⟨"gpt-4", some [⟨"user", .str "hi"⟩], none, none, none⟩).status = 401 ∧
    (handleChat none (some 200) []
      (fun _ _ => .failure ⟨some ⟨401, none⟩,
        some "Request failed with status code 401"⟩)
      ⟨"gpt-4", some [⟨"user", .str "hi"⟩], none, none, none⟩).errType =
      some "invalid_request_error" := by
  constructor <;> rfl

/-- C5 amended: the handler never inspects the credential — a missing key
behaves exactly like the literal key `undefined` (the Authorization header
becomes `Bearer undefined`), the request still goes upstream, and every
error response it can produce is typed `invalid_request_error` (there is no
configuration-error classification); the process answers rather than
crashing in every case. -/
theorem C5_amended (probe : Option Nat) (cache : List String)
    (upstream : String → NimRequest → UpstreamOutcome) (req : ChatRequest) :
    authHeader none = "Bearer undefined" ∧
    handleChat none probe cache upstream req =
      handleChat (some "undefined") probe cache upstream req ∧
    ((handleChat none probe cache upstream req).errType = none ∨
     (handleChat none probe cache upstream req).errType =
       some "invalid_request_error") := by
  refine ⟨rfl, rfl, ?_⟩
  simp only [handleChat]
  cases hm : req.messages with
  | none => right; rfl
  | some msgs =>
    cases hu : upstream (authHeader none)
        (buildNimRequest (resolveModel probe cache req.model).nimModel
          (List.map (transformMsg
            (requiresArrayFormat (resolveModel probe cache req.model).nimModel))
            msgs)
          req.temperature req.max_tokens req.stream) with
    | success => left; simp [hu]
    | failure e => right; simp [hu, catchHandler]

/-- C6: a caller model name that is a key of the static alias table resolves
to exactly the mapped upstream model, with no validation probe issued and
the validated-model cache untouched; the probe and the size heuristic are
reachable only when the lookup misses. -/
theorem C6_alias_exact_match (model m : String) (probe : Option Nat)
    (cache : List String) (h : MODEL_MAPPING.lookup model = some m) :
    resolveModel probe cache model = ⟨m, false, cache⟩ := by
  simp [resolveModel, h]

/-- Witness for C6 at the alias `gpt-4`. -/
theorem C6_alias_exact_match_witness :
    MODEL_MAPPING.lookup "gpt-4" = some "qwen/qwen3-coder-480b-a35b-instruct" ∧
    resolveModel (some 200) ["cached-model"] "gpt-4" =
      ⟨"qwen/qwen3-coder-480b-a35b-instruct", false, ["cached-model"]⟩ :=
  ⟨by decide,
   C6_alias_exact_match "gpt-4" _ (some 200) ["cached-model"] (by decide)⟩

/-- C7: a plain-string message routed to a model requiring structured
content is wrapped into a single text part carrying the original string;
flattening a single-text-part message (model not requiring structured
content) and re-wrapping it is the identity on the text; and normalization
preserves every role and the message order and count. -/
theorem C7_normalizer (role s : String) (raf : Bool) (msgs : List Msg) :
    transformMsg true ⟨role, .str s⟩ = ⟨role, .parts [⟨"text", s⟩]⟩ ∧
    transformMsg false ⟨role, .parts [⟨"text", s⟩]⟩ = ⟨role, .str s⟩ ∧
    transformMsg true (transformMsg false ⟨role, .parts [⟨"text", s⟩]⟩) =
      ⟨role, .parts [⟨"text", s⟩]⟩ ∧
    (msgs.map (transformMsg raf)).map Msg.role = msgs.map Msg.role ∧
    (msgs.map (transformMsg raf)).length = msgs.length := by
  refine ⟨rfl, rfl, rfl, ?_, by simp⟩
  induction msgs with
  | nil => rfl
  | cons m ms ih => simp [ih, transformMsg_role]

/-- C8: a complete line with the `data: ` marker whose remainder is not the
DONE sentinel and fails to parse as JSON is forwarded as the original line
(plus the newline the line split removed), the span flag is untouched, and
the following lines are still processed. -/
theorem C8_malformed_line_forwarded (parse : String → Option Frame)
    (stringify : Frame → String) (st : Bool) (line : String)
    (rest : List String)
    (hp : jsStartsWith line "data: " = true)
    (hd : jsSlice line 6 ≠ "[DONE]")
    (hj : parse (jsSlice line 6) = none) :
    processLine parse stringify true st line = ([line ++ "\n"], st) ∧
    processLines parse stringify true st (line :: rest) =
      ((line ++ "\n") :: (processLines parse stringify true st rest).1,
       (processLines parse stringify true st rest).2) := by
  have h1 : processLine parse stringify true st line = ([line ++ "\n"], st) := by
    simp only [processLine, hp, if_true]
    by_cases hdone : jsIncludes line "[DONE]" = true
    · simp [hdone]
    · simp [hdone, hj]
  exact ⟨h1, by simp [processLines, h1]⟩

/-- Witness for C8 at a concrete malformed line. -/
theorem C8_malformed_line_forwarded_witness :
    jsStartsWith "data: notjson" "data: " = true ∧
    jsSlice "data: notjson" 6 ≠ "[DONE]" ∧
    processLine (fun _ => none) (fun _ => "") true false "data: notjson" =
      (["data: notjson" ++ "\n"], false) :=
  ⟨by decide, by decide,
   (C8_malformed_line_forwarded (fun _ => none) (fun _ => "") false
     "data: notjson" [] (by decide) (by decide) rfl).1⟩

/-- C9: the catch handler picks the message by precedence — the structured
upstream detail when present (and nonempty), else the message field of the
error object (which carries the upstream generic HTTP-failure message or
the raw transport message, whichever axios produced), else the fallback
`Internal server error` — and answers with the upstream status when a
response is attached, else 500, in the `error.message`/`type`/`code`
envelope. -/
theorem C9_error_precedence (e : ErrObj) :
    (∀ d, detailOf e = some d → d ≠ "" → (catchHandler e).2.message = d) ∧
    (truthy (detailOf e) = false →
      ∀ m, e.message = some m → m ≠ "" → (catchHandler e).2.message = m) ∧
    (truthy (detailOf e) = false → truthy e.message = false →
      (catchHandler e).2.message = "Internal server error") ∧
    ((catchHandler e).1 = match e.response with
      | some r => r.status
      | none => 500) ∧
    (catchHandler e).2.type_ = "invalid_request_error" ∧
    (catchHandler e).2.code = (catchHandler e).1 := by
  have hmsg : (catchHandler e).2.message =
      jsOrStr (detailOf e) (jsOrStr e.message "Internal server error") := rfl
  have hx : truthy (detailOf e) = false →
      jsOrStr (detailOf e) (jsOrStr e.message "Internal server error") =
        jsOrStr e.message "Internal server error" := by
    intro hdf
    cases hde : detailOf e with
    | none => rfl
    | some s =>
      rw [hde] at hdf
      simp [truthy] at hdf
      simp [jsOrStr, hdf]
  refine ⟨?_, ?_, ?_, rfl, rfl, rfl⟩
  · intro d hd hne
    rw [hmsg, hd]
    simp [jsOrStr, hne]
  · intro hdf m hm hne
    rw [hmsg, hx hdf, hm]
    simp [jsOrStr, hne]
  · intro hdf hmf
    rw [hmsg, hx hdf]
    cases hme : e.message with
    | none => rfl
    | some s =>
      rw [hme] at hmf
      simp [truthy] at hmf
      simp [jsOrStr, hmf]

/-- Witness for C9 at an error carrying a structured detail. -/
theorem C9_error_precedence_witness :
    detailOf ⟨some ⟨404, some ⟨some "boom"⟩⟩,
      some "Request failed with status code 404"⟩ = some "boom" ∧
    (catchHandler ⟨some ⟨404, some ⟨some "boom"⟩⟩,
      some "Request failed with status code 404"⟩).2.message = "boom" :=
  ⟨rfl, (C9_error_precedence _).1 "boom" rfl (by decide)⟩

/-- C10: a complete line that does not begin with the `data: ` marker
(empty line, SSE comment, event line, ...) produces no output at all and
leaves the span flag unchanged; processing simply continues with the
remaining lines. -/
theorem C10_non_data_line_dropped (parse : String → Option Frame)
    (stringify : Frame → String) (showReasoning st : Bool)
    (line : String) (rest : List String)
    (h : jsStartsWith line "data: " = false) :
    processLine parse stringify showReasoning st line = ([], st) ∧
    processLines parse stringify showReasoning st (line :: rest) =
      processLines parse stringify showReasoning st rest := by
  have h1 : processLine parse stringify showReasoning st line = ([], st) := by
    simp [processLine, h]
  refine ⟨h1, ?_⟩
  simp [processLines, h1]

/-- Witness for C10 at a concrete SSE comment line. -/
theorem C10_non_data_line_dropped_witness :
    jsStartsWith ": comment" "data: " = false ∧
    processLine (fun _ => none) (fun _ => "") true false ": comment" =
      ([], false) :=
  ⟨by decide,
   (C10_non_data_line_dropped (fun _ => none) (fun _ => "") true false
     ": comment" [] (by decide)).1⟩
